import Mathlib

/-!
Verification of the koality data-quality engine (src/koality) against its
natural-language specification.  Each Python function relevant to the claims is
shallowly embedded as an executable Lean definition; theorems about those
definitions settle the claims.
-/

namespace Koality

/-- Extended number used for check thresholds: Python floats that may be
`-math.inf` or `math.inf` (checks.py defaults `lower_threshold = -math.inf`,
`upper_threshold = math.inf`); finite values are modelled as rationals. -/
inductive EFloat where
  | negInf
  | fin (q : ℚ)
  | posInf
deriving DecidableEq, Repr

/-- Python's `<=` on the threshold numbers. -/
def EFloat.le : EFloat → EFloat → Bool
  | .negInf, _ => true
  | .fin _, .posInf => true
  | .fin x, .fin y => decide (x ≤ y)
  | .fin _, .negInf => false
  | .posInf, .posInf => true
  | .posInf, .fin _ => false
  | .posInf, .negInf => false

/-- Python `str()` of a threshold: `str(math.inf) = "inf"`, `str(-math.inf) = "-inf"`;
integral values render without a decimal point (the repository's configurations and
tests pass thresholds as Python ints).  Non-integral finite values are rendered as
`num/den`, a model-level simplification: no claim evaluates the message at a
non-integral threshold. -/
def EFloat.pyStr : EFloat → String
  | .negInf => "-inf"
  | .posInf => "inf"
  | .fin q => if q.den = 1 then toString q.num else toString q.num ++ "/" ++ toString q.den

/-- checks.py line 14: `FLOAT_PRECISION = 4`. -/
def FLOAT_PRECISION : ℕ := 4

/-- Round the fraction `t / b` (with `b > 0`) to the nearest integer, ties to even —
the rounding used by Python's fixed-point `format`.  Working on numerator and
denominator directly keeps the definition evaluable by the kernel. -/
def roundHalfEvenScaled (t : ℤ) (b : ℕ) : ℤ :=
  let f := Int.fdiv t b
  let r := Int.fmod t b
  if 2 * r < (b : ℤ) then f
  else if (b : ℤ) < 2 * r then f + 1
  else if f % 2 = 0 then f else f + 1

/-- Left-pad a digit string with zeros to width `k`. -/
def padZeros (k : ℕ) (s : String) : String :=
  String.mk (List.replicate (k - s.length) '0') ++ s

/-- Python `f"{q:.{prec}f}"` for a non-negative rational: round `q * 10 ^ prec`
half-to-even and print integer and fractional digits. -/
def formatFixedNonneg (prec : ℕ) (q : ℚ) : String :=
  let n := (roundHalfEvenScaled (q.num * (10 : ℤ) ^ prec) q.den).toNat
  let ip := n / 10 ^ prec
  let fp := n % 10 ^ prec
  if prec = 0 then toString ip
  else toString ip ++ "." ++ padZeros prec (toString fp)

/-- Python `f"{q:.{prec}f}"` — fixed-point formatting with `prec` digits after the
decimal point (checks.py line 183 uses `prec = FLOAT_PRECISION = 4`). -/
def formatFixed (prec : ℕ) (q : ℚ) : String :=
  if q < 0 then "-" ++ formatFixedNonneg prec (-q) else formatFixedNonneg prec q

/-- The per-check attributes that `DataQualityCheck.check` (checks.py 141-191)
reads.  `date_info_string` and `extra_info_string` carry the formatting applied in
`__init__` (checks.py 49-50): `" (...)"` resp. `" ..."`, or `""` when absent. -/
structure CheckCfg where
  shop_id : String
  name : String
  table : String
  check_column : String
  date_filter_value : String
  date_info_string : String
  extra_info_string : String
  lower_threshold : EFloat
  upper_threshold : EFloat
  monitor_only : Bool
deriving DecidableEq, Repr

/-- The result dict built by `DataQualityCheck.check` (checks.py 170-180). -/
structure CheckRecord where
  DATE : String
  METRIC_NAME : String
  SHOP_ID : String
  TABLE : String
  COLUMN : String
  VALUE : Option ℚ
  LOWER_THRESHOLD : EFloat
  UPPER_THRESHOLD : EFloat
  RESULT : String
deriving DecidableEq, Repr

/-- Embeds `DataQualityCheck.check` (checks.py 141-191).  The metric query's outcome
is passed in as `metric`: `.error e` models `duckdb.Error` with message `e` (in which
case `_check` returns `data = []`), `.ok rows` the fetched rows projected to the
check's named column (`result[0][self.name]`), a row value of `none` modelling SQL
NULL.  Returns the result dict together with the failure message the method assigns
to `self.message` (`none` when no message is assigned). -/
def DataQualityCheck.check (c : CheckCfg) (metric : Except String (List (Option ℚ))) :
    CheckRecord × Option String :=
  let check_value : Option ℚ :=
    match metric with
    | .error _ => none
    | .ok rows => (rows.head?).getD none
  let result : String :=
    match metric with
    | .error _ => "ERROR"
    | .ok _ =>
        if c.monitor_only then "MONITOR_ONLY"
        else
          let success := match check_value with
            | some v => c.lower_threshold.le (.fin v) && (EFloat.fin v).le c.upper_threshold
            | none => false
          if success then "SUCCESS" else "FAIL"
  let record : CheckRecord :=
    { DATE := c.date_filter_value
      METRIC_NAME := c.name
      SHOP_ID := c.shop_id
      TABLE := c.table
      COLUMN := c.check_column
      VALUE := check_value
      LOWER_THRESHOLD := c.lower_threshold
      UPPER_THRESHOLD := c.upper_threshold
      RESULT := result }
  let message : Option String :=
    match metric with
    | .error e => some (c.shop_id ++ ": Metric " ++ c.name ++ " query errored with " ++ e)
    | .ok _ =>
        if result = "FAIL" then
          let value_string := match check_value with
            | some v => formatFixed FLOAT_PRECISION v
            | none => "NULL"
          some (c.shop_id ++ ": Metric " ++ c.name ++ " failed on " ++ c.date_filter_value
            ++ c.date_info_string ++ " for " ++ c.table ++ ". Value " ++ value_string
            ++ " is not between " ++ c.lower_threshold.pyStr ++ " and "
            ++ c.upper_threshold.pyStr ++ "." ++ c.extra_info_string)
        else none
  (record, message)

/-! ### Date parsing (utils.py 82-110) -/

/-- ASCII lower-casing of a character, as `str.lower` does on the strings the
repository handles. -/
def lowerChar (c : Char) : Char :=
  if 'A' ≤ c ∧ c ≤ 'Z' then Char.ofNat (c.toNat + 32) else c

/-- `str.lower` (utils.py line 93), restricted to ASCII. -/
def lowerString (s : String) : String :=
  String.mk (s.toList.map lowerChar)

/-- Interpret a non-empty all-digit character list as a natural number. -/
def digitsToNat? (cs : List Char) : Option ℕ :=
  if cs = [] then none
  else if cs.all Char.isDigit then
    some (cs.foldl (fun acc c => 10 * acc + (c.toNat - 48)) 0)
  else none

/-- Gregorian leap-year rule. -/
def isLeapYear (y : ℕ) : Bool :=
  (y % 4 = 0 && y % 100 ≠ 0) || y % 400 = 0

/-- Number of days in month `m` of year `y`. -/
def daysInMonth (y m : ℕ) : ℕ :=
  if m = 2 then (if isLeapYear y then 29 else 28)
  else if m = 4 ∨ m = 6 ∨ m = 9 ∨ m = 11 then 30 else 31

/-- Days in year `y` that precede month `m`. -/
def daysBeforeMonth (y m : ℕ) : ℕ :=
  (List.range (m - 1)).foldl (fun acc i => acc + daysInMonth y (i + 1)) 0

/-- Proleptic Gregorian ordinal of a calendar date, as Python's
`datetime.date.toordinal` (day `0001-01-01` is ordinal 1). -/
def dateOrdinal (y m d : ℕ) : ℕ :=
  365 * (y - 1) + (y - 1) / 4 - (y - 1) / 100 + (y - 1) / 400 + daysBeforeMonth y m + d

/-- Models `datetime.fromisoformat` for the date-only forms the repository and its
tests use: `YYYY-MM-DD` and the compact `YYYYMMDD`; any other string raises
`ValueError` (`none`).  Returns the proleptic Gregorian ordinal of the date. -/
def fromisoformat (s : String) : Option ℕ :=
  let parts : Option (List Char × List Char × List Char) :=
    match s.toList with
    | [y1, y2, y3, y4, '-', m1, m2, '-', d1, d2] => some ([y1, y2, y3, y4], [m1, m2], [d1, d2])
    | [y1, y2, y3, y4, m1, m2, d1, d2] => some ([y1, y2, y3, y4], [m1, m2], [d1, d2])
    | _ => none
  match parts with
  | none => none
  | some (ys, ms, ds) =>
      match digitsToNat? ys, digitsToNat? ms, digitsToNat? ds with
      | some y, some m, some d =>
          if 1 ≤ y ∧ 1 ≤ m ∧ m ≤ 12 ∧ 1 ≤ d ∧ d ≤ daysInMonth y m then
            some (dateOrdinal y m d)
          else none
      | _, _, _ => none

/-- The leading run of decimal digits. -/
def takeDigits (cs : List Char) : List Char :=
  cs.takeWhile Char.isDigit

/-- One attempt of the regex `today([+-][0-9]+)` at the current position: the
literal `today`, a sign, then a maximal non-empty digit run. -/
def matchTodayAt : List Char → Option ℤ
  | 't' :: 'o' :: 'd' :: 'a' :: 'y' :: sign :: rest =>
      if sign = '+' ∨ sign = '-' then
        match digitsToNat? (takeDigits rest) with
        | some n => some (if sign = '-' then -(n : ℤ) else (n : ℤ))
        | none => none
      else none
  | _ => none

/-- `re.search(r"today([+-][0-9]+)", date)` (utils.py line 106): try every start
position from the left and return the first captured signed offset. -/
def searchTodayOffset : List Char → Option ℤ
  | [] => none
  | c :: rest =>
      match matchTodayAt (c :: rest) with
      | some k => some k
      | none => searchTodayOffset rest

/-- Embeds `parse_date` (utils.py 82-110).  `now` is the proleptic Gregorian
ordinal of the current UTC date (`datetime.now(tz=UTC).date()`); the result is the
ordinal of the parsed date (`.isoformat()` of a date is injective, so comparing
ordinals is equivalent to comparing the returned ISO strings), and `none` models
the `ValueError` raised by `datetime.fromisoformat` when the string is neither a
recognised keyword form nor an ISO date. -/
def parse_date (now : ℤ) (dateStr : String) (offset_days : ℤ) : Option ℤ :=
  let date := lowerString dateStr
  if date = "today" then some (now + offset_days)
  else if date = "yesterday" then some (now + (offset_days - 1))
  else if date = "tomorrow" then some (now + (offset_days + 1))
  else
    match searchTodayOffset date.toList with
    | some k => some (now + (offset_days + k))
    | none => (fromisoformat date).map (fun o => (o : ℤ) + offset_days)

/-! ### WHERE-clause assembly (checks.py 236-258) -/

/-- A Python value as it appears in a filter dict: `None`, a string, or an int. -/
inductive PyVal where
  | none_
  | str (s : String)
  | int (n : ℤ)
deriving DecidableEq, Repr

/-- Python `str()` of such a value. -/
def PyVal.pyStr : PyVal → String
  | .none_ => "None"
  | .str s => s
  | .int n => toString n

/-- A filter entry as the new-style `get_filters` produces it (see
tests/unit/test_filters.py): resolved column, value, operator and type.  The
source `assemble_where_statement` reads only `column` and `value`. -/
structure Filter where
  column : String
  value : PyVal
  operator : String
  ftype : String
deriving DecidableEq, Repr

/-- Join a list of strings with a separator (Python `sep.join`). -/
def joinSep (sep : String) : List String → String
  | [] => ""
  | [x] => x
  | x :: y :: xs => x ++ sep ++ joinSep sep (y :: xs)

/-- Embeds `DataQualityCheck.assemble_where_statement` (checks.py 236-258): an
empty filter mapping yields `""`; otherwise every filter is rendered as
`    column = 'str(value)'` and the conditions are joined by `AND` after a
`WHERE` prefix.  The filter mapping is modelled as an association list in dict
iteration order. -/
def assemble_where_statement (filters : List (String × Filter)) : String :=
  if filters.length = 0 then ""
  else
    let filters_statements :=
      filters.map (fun nf => "    " ++ nf.2.column ++ " = \x27" ++ nf.2.value.pyStr ++ "\x27")
    "WHERE\n" ++ joinSep "\nAND\n" filters_statements

/-! ### Data-existence probe and check dispatch (checks.py 92-128, 193-198) -/

/-- The result dict built by `DataQualityCheck.data_check` (checks.py 123-128). -/
structure DataCheckRecord where
  DATE : String
  METRIC_NAME : String
  SHOP_ID : String
  TABLE : String
deriving DecidableEq, Repr

/-- Embeds `DataQualityCheck.data_check` (checks.py 92-128).  `probe` is the
outcome of executing the data-exists query: `.error ()` models `duckdb.Error`,
`.ok row` the `fetchone()` result projected to its single `empty_table` column
(`none` when no row came back).  `probe_date` stands for the date the method
selects on line 120.  Returns the result dict (`none` models the empty dict
returned when data is taken to exist) together with the message assigned to
`self.message`. -/
def DataQualityCheck.data_check (table probe_date shop_id : String)
    (probe : Except Unit (Option String)) : Option DataCheckRecord × Option String :=
  let st : Bool × String :=
    match probe with
    | .error _ => (false, "Error while executing data check query on " ++ table)
    | .ok row => (decide ((row.getD "") ≠ ""), "")
  if !st.1 then (none, none)
  else
    (some { DATE := probe_date, METRIC_NAME := "data_exists", SHOP_ID := shop_id,
            TABLE := st.2 },
     some ("No data in " ++ st.2 ++ " on " ++ probe_date ++ " for: " ++ shop_id))

/-- Embeds `DataQualityCheck.__call__` (checks.py 193-198): run the data check; if
it returned a non-empty dict, return it without running the metric query,
otherwise run `check`.  The boolean records whether the metric query was
executed. -/
def DataQualityCheck.callCheck (c : CheckCfg) (probe : Except Unit (Option String))
    (metric : Except String (List (Option ℚ))) :
    (DataCheckRecord ⊕ CheckRecord) × Bool :=
  match (DataQualityCheck.data_check c.table c.date_filter_value c.shop_id probe).1 with
  | some rec => (.inl rec, false)
  | none => (.inr (DataQualityCheck.check c metric).1, true)

/-! ### Constructor-time validation (checks.py 494-495, 744-745, 827-846, 1118-1127) -/

/-- A Python literal as it can appear inside a `value_set`. -/
inductive Prim where
  | pstr (s : String)
  | pint (n : ℤ)
  | pbool (b : Bool)
deriving DecidableEq, Repr

/-- A `value_set` argument: a single scalar or a collection (list/tuple/set) of
scalars. -/
inductive SetVal where
  | prim (p : Prim)
  | coll (l : List Prim)
deriving DecidableEq, Repr

/-- Skip ASCII spaces. -/
def skipSpaces : List Char → List Char
  | ' ' :: rest => skipSpaces rest
  | cs => cs

/-- Parse one scalar literal: a quoted string or a digit run. -/
def parsePrim : List Char → Option (Prim × List Char)
  | '"' :: rest =>
      let content := rest.takeWhile (fun c => decide (c ≠ '"'))
      (match rest.drop content.length with
       | '"' :: r => some (.pstr (String.mk content), r)
       | _ => none)
  | c :: rest =>
      if c = Char.ofNat 39 then
        let content := rest.takeWhile (fun d => decide (d ≠ Char.ofNat 39))
        (match rest.drop content.length with
         | d :: r => if d = Char.ofNat 39 then some (.pstr (String.mk content), r) else none
         | _ => none)
      else
        let ds := takeDigits (c :: rest)
        (match digitsToNat? ds with
         | some n => some (.pint (n : ℤ), (c :: rest).drop ds.length)
         | none => none)
  | [] => none

/-- Parse a comma-separated sequence of scalar literals (fuelled by the input
length). -/
def parseItems : ℕ → List Char → Option (List Prim × List Char)
  | 0, _ => none
  | fuel + 1, cs =>
      match parsePrim (skipSpaces cs) with
      | none => none
      | some (p, rest) =>
          (match skipSpaces rest with
           | ',' :: rest2 =>
               (match parseItems fuel rest2 with
                | some (ps, rest3) => some (p :: ps, rest3)
                | none =>
                    -- trailing comma before the closing bracket
                    some ([p], rest2))
           | rest2 => some ([p], rest2))

/-- Models `ast.literal_eval` for the literal shapes `to_set` documents
(utils.py 129-143): a quoted string, a bare number, or a parenthesised /
bracketed list of such scalars; everything else raises (`none`). -/
def literalEval? (s : String) : Option SetVal :=
  let cs := skipSpaces s.toList
  match cs with
  | '(' :: rest =>
      (match skipSpaces rest with
       | ')' :: rest2 => if skipSpaces rest2 = [] then some (.coll []) else none
       | body =>
           match parseItems body.length body with
           | some (ps, rest2) =>
               (match skipSpaces rest2 with
                | ')' :: rest3 =>
                    if skipSpaces rest3 = [] then
                      -- Python: parentheses around a single element are grouping,
                      -- not a tuple; the resulting value is the scalar itself
                      (match ps with
                       | [p] => some (.prim p)
                       | _ => some (.coll ps))
                    else none
                | _ => none)
           | none => none)
  | '[' :: rest =>
      (match skipSpaces rest with
       | ']' :: rest2 => if skipSpaces rest2 = [] then some (.coll []) else none
       | body =>
           match parseItems body.length body with
           | some (ps, rest2) =>
               (match skipSpaces rest2 with
                | ']' :: rest3 => if skipSpaces rest3 = [] then some (.coll ps) else none
                | _ => none)
           | none => none)
  | _ =>
      match parsePrim cs with
      | some (p, rest) => if skipSpaces rest = [] then some (.prim p) else none
      | none => none

/-- First-occurrence deduplication, the membership semantics of Python `set`. -/
def dedupFirst {α : Type} [DecidableEq α] : List α → List α
  | [] => []
  | a :: as => a :: (dedupFirst as).filter (fun b => decide (b ≠ a))

/-- Embeds `to_set` (utils.py 129-151): try `ast.literal_eval` on string input
(suppressing failure), wrap non-iterables (and strings) as singletons, and turn
collections into sets (modelled as first-occurrence deduplicated lists). -/
def to_set (v : SetVal) : List Prim :=
  let v1 := match v with
    | .prim (.pstr s) => (literalEval? s).getD v
    | _ => v
  match v1 with
  | .prim p => [p]
  | .coll l => dedupFirst l

instance {ε α : Type} [DecidableEq ε] [DecidableEq α] : DecidableEq (Except ε α) := fun a b =>
  match a, b with
  | .error e, .error f => decidable_of_iff (e = f) (by simp)
  | .ok x, .ok y => decidable_of_iff (x = y) (by simp)
  | .error _, .ok _ => isFalse (by simp)
  | .ok _, .error _ => isFalse (by simp)

/-- The `value_set` validation in `ValuesInSetCheck.__init__` (checks.py
493-495): an empty set raises `ValueError` before any query could run. -/
def ValuesInSetCheck.initCheck (value_set : SetVal) : Except String (List Prim) :=
  let s := to_set value_set
  if s = [] then .error "\x27value_set\x27 must not be empty" else .ok s

/-- The mode validation in `OccurrenceCheck.__init__` (checks.py 744-745). -/
def OccurrenceCheck.initCheck (max_or_min : String) : Except String String :=
  if ¬ (max_or_min = "max" ∨ max_or_min = "min") then
    .error "\x27max_or_min\x27 not one of supported modes \x27min\x27 or \x27max\x27"
  else .ok max_or_min

/-- Python truthiness of an optional list argument (`None` and `[]` are falsy). -/
def truthy (o : Option (List String)) : Bool :=
  match o with
  | some l => !l.isEmpty
  | none => false

/-- The join-column validation in `MatchRateCheck.__init__` (checks.py 827-846):
resolve `join_columns_left`/`join_columns_right` with `join_columns` as fallback
and reject missing columns and length mismatches before any query could run. -/
def MatchRateCheck.initCheck
    (join_columns join_columns_left join_columns_right : Option (List String)) :
    Except String (List String × List String) :=
  if ¬ (truthy join_columns ∨ (truthy join_columns_left ∧ truthy join_columns_right)) then
    .error "No join_columns was provided. Use either join_columns or join_columns_left and join_columns_right"
  else
    let jl := match join_columns_left with
      | some l => if l.isEmpty then join_columns.getD [] else l
      | none => join_columns.getD []
    let jr := match join_columns_right with
      | some l => if l.isEmpty then join_columns.getD [] else l
      | none => join_columns.getD []
    if jr.isEmpty ∨ jl.isEmpty then
      .error "No join_columns was provided. Use join_columns, join_columns_left, and/or join_columns_right"
    else if jl.length ≠ jr.length then
      .error ("join_columns_left and join_columns_right need to have equal length ("
        ++ toString jl.length ++ " vs. " ++ toString jr.length ++ ").")
    else .ok (jl, jr)

/-- The float literal `1.5` of checks.py line 1125, in reduced form so the kernel
can evaluate comparisons against it. -/
def iqrFactorMin : ℚ := Rat.mk' 3 2 (by norm_num) (by norm_num)

/-- The parameter validation in `IqrOutlierCheck.__init__` (checks.py 1116-1127):
`interval_days ≥ 1`, `how ∈ both/upper/lower` and `iqr_factor ≥ 1.5` are checked
in that order, each violation raising `ValueError` before any query could run. -/
def IqrOutlierCheck.initCheck (interval_days : ℤ) (how : String) (iqr_factor : ℚ) :
    Except String (ℤ × String × ℚ) :=
  if interval_days < 1 then .error "interval_days must be at least 1"
  else if ¬ (how = "both" ∨ how = "upper" ∨ how = "lower") then
    .error "how must be one of \x27both\x27, \x27upper\x27, \x27lower\x27"
  else if iqr_factor < iqrFactorMin then .error "iqr_factor must be at least 1.5"
  else .ok (interval_days, how, iqr_factor)

/-! ### Executor: data-existence cache (executor.py 137-206, 502-514) -/

/-- A filter configuration dict as the executor reads it: each of the keys
`column`, `value`, `operator`, `type` is accessed with `.get`, so each may be
absent. -/
structure FilterCfg where
  column : Option String
  value : Option PyVal
  operator : Option String
  ftype : Option String
deriving DecidableEq, Repr

/-- The per-filter tuple `_get_dataset_cache_key` builds (executor.py 170-176):
`(name, column, str(value), operator, type)` — note the value is passed through
`str`, so an absent value renders as `"None"`. -/
def filterSig (pfx : String) (nf : String × FilterCfg) :
    String × Option String × String × Option String × Option String :=
  (pfx ++ nf.1, nf.2.column,
   (match nf.2.value with
    | some v => v.pyStr
    | none => "None"),
   nf.2.operator, nf.2.ftype)

/-- The dataset cache key `(table, accessor, date_value, frozenset(filters))`
(executor.py 206). -/
structure CacheKey where
  table : String
  accessor : String
  date_value : Option PyVal
  filters_key : Finset (String × Option String × String × Option String × Option String)
deriving DecidableEq

/-- The check attributes `_get_dataset_cache_key` and the `execute_checks` loop
read, together with the environment's responses for this check: `probe_outcome`
is what its `data_check` would return if executed (`none` = data exists), and
`check_outcome` the result dict its metric `check` would produce. -/
structure ExecCheck where
  table : String
  database_accessor : Option String
  date_filter : Option FilterCfg
  filters : List (String × FilterCfg)
  is_match_rate : Bool
  filters_left : List (String × FilterCfg)
  filters_right : List (String × FilterCfg)
  probe_outcome : Option DataCheckRecord
  check_outcome : CheckRecord

/-- Embeds `CheckExecutor._get_dataset_cache_key` (executor.py 137-206): the key
is `(table, database_accessor or "", date_filter.get("value"),
frozenset(filter tuples))`, with `left_`/`right_`-prefixed tuples added for
`MatchRateCheck` instances.  The `sorted` iteration of the source is irrelevant
under the final `frozenset`. -/
def CheckExecutor.get_dataset_cache_key (c : ExecCheck) : CacheKey :=
  let database_accessor := c.database_accessor.getD ""
  let date_value : Option PyVal :=
    match c.date_filter with
    | some f => f.value
    | none => none
  let filters_items := c.filters.map (filterSig "")
  let filters_items :=
    if c.is_match_rate then
      filters_items ++ c.filters_left.map (filterSig "left_")
        ++ c.filters_right.map (filterSig "right_")
    else filters_items
  ⟨c.table, database_accessor, date_value, filters_items.toFinset⟩

/-- The mutable executor state of the `execute_checks` loop (executor.py
502-514): `_data_existence_cache`, the log of cache keys whose probe actually
executed, and the accumulated `results` list. -/
structure RunState where
  cache : List (CacheKey × Option DataCheckRecord)
  probes : List CacheKey
  results : List (DataCheckRecord ⊕ CheckRecord)

/-- First-match association-list lookup (`cache_key in self._data_existence_cache`
plus the subsequent read). -/
def lookupKey : List (CacheKey × Option DataCheckRecord) → CacheKey → Option (Option DataCheckRecord)
  | [], _ => none
  | (k, r) :: rest, k2 => if k = k2 then some r else lookupKey rest k2

/-- The result appended for one check (executor.py 511-514): the data-check dict
when it is non-empty, otherwise the metric check's result. -/
def mkResult (c : ExecCheck) (probe : Option DataCheckRecord) : DataCheckRecord ⊕ CheckRecord :=
  match probe with
  | some rec => .inl rec
  | none => .inr c.check_outcome

/-- One iteration of the `execute_checks` loop (executor.py 502-514): on a cache
miss the probe executes and its outcome is recorded, on a hit the recorded
outcome is reused without re-querying. -/
def stepCheck (s : RunState) (c : ExecCheck) : RunState :=
  let k := CheckExecutor.get_dataset_cache_key c
  match lookupKey s.cache k with
  | some r => { s with results := s.results ++ [mkResult c r] }
  | none =>
      { cache := s.cache ++ [(k, c.probe_outcome)]
        probes := s.probes ++ [k]
        results := s.results ++ [mkResult c c.probe_outcome] }

/-- Embeds the check-execution loop of `CheckExecutor.execute_checks`
(executor.py 502-514), starting from an empty cache. -/
def CheckExecutor.execute_checks (cs : List ExecCheck) : RunState :=
  cs.foldl stepCheck ⟨[], [], []⟩

/-- The probe outcome the run records for cache key `k`: that of the first check
in declaration order whose key is `k` (none when no check has that key). -/
def effProbe (cs : List ExecCheck) (k : CacheKey) : Option DataCheckRecord :=
  match cs with
  | [] => none
  | c :: rest =>
      if CheckExecutor.get_dataset_cache_key c = k then c.probe_outcome else effProbe rest k

/-- The cache keys that trigger a probe while scanning a check list, given the
set of keys already probed. -/
def firstKeys (seen : List CacheKey) : List ExecCheck → List CacheKey
  | [] => []
  | c :: cs =>
      let k := CheckExecutor.get_dataset_cache_key c
      if k ∈ seen then firstKeys seen cs
      else k :: firstKeys (seen ++ [k]) cs

/-! ### Executor: result aggregation (executor.py 131-134, 563-621) -/

/-- A result dict as the aggregation step sees it.  `data_exists`/`table_exists`
records carry only date, metric name, identifier and table; the remaining fields
are absent (`none`).  `IDENTIFIER` stands for the value at the executor's
identifier column (`SHOP_ID` in checks.py). -/
structure ResultDict where
  DATE : String
  METRIC_NAME : String
  IDENTIFIER : String
  TABLE : String
  COLUMN : Option String
  VALUE : Option ℚ
  LOWER_THRESHOLD : Option EFloat
  UPPER_THRESHOLD : Option EFloat
  RESULT : Option String
deriving DecidableEq, Repr

/-- Embeds `CheckExecutor.aggregate_values` (executor.py 131-134):
`", ".join(sorted(set(value_list)))`, with Python's `sorted` modelled by
insertion sort on the lexicographic string order. -/
def CheckExecutor.aggregate_values (value_list : List String) : String :=
  joinSep ", " (List.insertionSort (fun a b => a ≤ b) (dedupFirst value_list))

/-- Whether a result dict is a missing-data record (executor.py 580-585). -/
def isNoData (r : ResultDict) : Bool :=
  r.METRIC_NAME = "data_exists" || r.METRIC_NAME = "table_exists"

/-- The grouping key `(DATE, METRIC_NAME, TABLE)` of executor.py line 596. -/
def groupKeyOf (r : ResultDict) : String × String × String :=
  (r.DATE, r.METRIC_NAME, r.TABLE)

/-- The combined row emitted for one group (executor.py 606-619): the group's
fields, the aggregated identifiers, null column/value/thresholds and `FAIL`. -/
def combinedRow (no_data : List ResultDict) (k : String × String × String) : ResultDict :=
  { DATE := k.1
    METRIC_NAME := k.2.1
    TABLE := k.2.2
    IDENTIFIER := CheckExecutor.aggregate_values
      (((no_data.filter (fun r => decide (groupKeyOf r = k)))).map (fun r => r.IDENTIFIER))
    COLUMN := none
    VALUE := none
    LOWER_THRESHOLD := none
    UPPER_THRESHOLD := none
    RESULT := some "FAIL" }

/-- Embeds `CheckExecutor._aggregate_result_dicts` (executor.py 563-621): split
off the `data_exists`/`table_exists` records, group them by
`(DATE, METRIC_NAME, TABLE)` in first-occurrence order (Python dict insertion
order), emit one combined `FAIL` row per group, and prepend them to the untouched
remaining records. -/
def CheckExecutor.aggregate_result_dicts (result_dicts : List ResultDict) : List ResultDict :=
  let result_other := result_dicts.filter (fun r => !isNoData r)
  let result_no_data := result_dicts.filter isNoData
  if result_no_data.isEmpty then result_other
  else
    let keys := dedupFirst (result_no_data.map groupKeyOf)
    keys.map (combinedRow result_no_data) ++ result_other

/-! ### Concrete fixtures used by witnesses and counterexample evaluations -/

/-- A nominal check configuration (thresholds 0..10, not monitor-only). -/
def cfgNominal : CheckCfg :=
  ⟨"SHOP001", "row_count", "dummy_table", "*", "2023-01-01", "", "", .fin 0, .fin 10, false⟩

/-- The configuration of tests/test_checks.py `test_message_correct_formatting`:
thresholds 0 and 0. -/
def cfgZeroBand : CheckCfg :=
  ⟨"SHOP001", "row_count", "dummy_table", "*", "2023-01-01", "", "", .fin 0, .fin 0, false⟩

/-- The value `0.0000123` of tests/test_checks.py `test_message_correct_formatting`,
in reduced form so the kernel can evaluate with it. -/
def valTiny : ℚ := Rat.mk' 123 10000000 (by norm_num) (by norm_num)

/-- A `data_exists` record fixture for a given shop. -/
def recNoData (shop : String) : DataCheckRecord :=
  ⟨"2023-01-01", "data_exists", shop, ""⟩

/-- A metric check-result fixture. -/
def recMetric : CheckRecord :=
  ⟨"2023-01-01", "row_count", "SHOP001", "dummy_table", "*", some 7, .fin 0, .fin 10, "SUCCESS"⟩

/-- The identifier filter of the scenario in
tests/integration/test_executor.py `test_data_existence_cache_different_datasets`. -/
def shopFilter (shop : String) : String × FilterCfg :=
  ("shop", ⟨some "shop_code", some (.str shop), some "=", some "identifier"⟩)

/-- The date filter of that scenario. -/
def dateFilterEx : String × FilterCfg :=
  ("date", ⟨some "DATE", some (.str "2023-01-01"), some "=", some "date"⟩)

/-- A check on `dummy_table` restricted to one shop, with prescribed probe and
metric outcomes. -/
def execCheckFor (shop : String) (probe : Option DataCheckRecord) : ExecCheck :=
  { table := "dummy_table", database_accessor := some "",
    date_filter := some dateFilterEx.2,
    filters := [dateFilterEx, shopFilter shop], is_match_rate := false,
    filters_left := [], filters_right := [],
    probe_outcome := probe, check_outcome := recMetric }

/-- First check on the SHOP001 dataset: its probe reports missing data. -/
def exA : ExecCheck := execCheckFor "SHOP001" (some (recNoData "SHOP001"))

/-- Second check on the exact same dataset; its own probe would report data
present, but the cache must hand it exA's recorded outcome. -/
def exB : ExecCheck := execCheckFor "SHOP001" none

/-- A check differing from exA only in the identifier filter's value. -/
def exC : ExecCheck := execCheckFor "SHOP002" (some (recNoData "SHOP002"))

/-- Result-dict fixtures for the aggregation scenario: two `data_exists` rows of
the same `(date, metric, table)` group with different identifiers, and one
ordinary metric row. -/
def rdNoData (shop : String) : ResultDict :=
  ⟨"2023-01-01", "data_exists", shop, "dummy_table", none, none, none, none, none⟩

/-- An ordinary (non-missing-data) result row. -/
def rdMetric : ResultDict :=
  ⟨"2023-01-01", "row_count", "SHOP001", "dummy_table", some "*", some 7,
   some (.fin 0), some (.fin 10), some "SUCCESS"⟩

/-! ## Theorems settling the claims -/

/-- C1: For every executed check with no query-execution error and
`monitor_only = false`, the recorded result is `SUCCESS` if and only if
`lower_threshold <= value <= upper_threshold` (inclusive on both ends, stated
both through the embedded Python comparison `EFloat.le` and, for finite
thresholds, through `≤` on ℚ), and a null value always yields `FAIL`, never
`SUCCESS`. -/
theorem C1_threshold_classification (c : CheckCfg) (rows : List (Option ℚ))
    (h : c.monitor_only = false) :
    ((DataQualityCheck.check c (.ok rows)).1.RESULT = "SUCCESS" ↔
      ∃ v, (DataQualityCheck.check c (.ok rows)).1.VALUE = some v ∧
        c.lower_threshold.le (.fin v) = true ∧ (EFloat.fin v).le c.upper_threshold = true)
    ∧ ((DataQualityCheck.check c (.ok rows)).1.VALUE = none →
        (DataQualityCheck.check c (.ok rows)).1.RESULT = "FAIL")
    ∧ (∀ lo hi : ℚ, c.lower_threshold = .fin lo → c.upper_threshold = .fin hi →
        ((DataQualityCheck.check c (.ok rows)).1.RESULT = "SUCCESS" ↔
          ∃ v, (DataQualityCheck.check c (.ok rows)).1.VALUE = some v ∧ lo ≤ v ∧ v ≤ hi)) := by
  rcases rows with _ | ⟨v0, rest⟩
  · simp [DataQualityCheck.check, h]
  · rcases v0 with _ | v
    · simp [DataQualityCheck.check, h]
    · refine ⟨?_, by simp [DataQualityCheck.check, h], ?_⟩
      · simp only [DataQualityCheck.check, h, List.head?_cons, Option.getD_some]
        rw [if_neg (by simp)]
        by_cases hb : (c.lower_threshold.le (EFloat.fin v) && (EFloat.fin v).le c.upper_threshold) = true
        · rw [if_pos hb]
          simp only [Bool.and_eq_true] at hb
          exact iff_of_true rfl ⟨v, rfl, hb.1, hb.2⟩
        · rw [if_neg hb]
          simp only [Bool.and_eq_true] at hb
          refine iff_of_false (by decide) ?_
          rintro ⟨w, hw, h1, h2⟩
          injection hw with hw
          subst hw
          exact hb ⟨h1, h2⟩
      · intro lo hi hl hu
        simp only [DataQualityCheck.check, h, List.head?_cons, Option.getD_some, hl, hu,
          EFloat.le]
        rw [if_neg (by simp)]
        by_cases hb : (decide (lo ≤ v) && decide (v ≤ hi)) = true
        · rw [if_pos hb]
          simp only [Bool.and_eq_true, decide_eq_true_eq] at hb
          exact iff_of_true rfl ⟨v, rfl, hb.1, hb.2⟩
        · rw [if_neg hb]
          simp only [Bool.and_eq_true, decide_eq_true_eq] at hb
          refine iff_of_false (by decide) ?_
          rintro ⟨w, hw, h1, h2⟩
          injection hw with hw
          subst hw
          exact hb ⟨h1, h2⟩

/-- Witness for C1 at a concrete input: value 7 inside thresholds 0..10 is
`SUCCESS`. -/
theorem C1_threshold_classification_witness :
    cfgNominal.monitor_only = false ∧
    ((DataQualityCheck.check cfgNominal (.ok [some 7])).1.RESULT = "SUCCESS" ↔
      ∃ v, (DataQualityCheck.check cfgNominal (.ok [some 7])).1.VALUE = some v ∧
        cfgNominal.lower_threshold.le (.fin v) = true ∧
        (EFloat.fin v).le cfgNominal.upper_threshold = true) :=
  ⟨by decide, (C1_threshold_classification cfgNominal [some 7] (by decide)).1⟩

/-- C2: contrary to the claim, only `today` supports an inline offset suffix:
`parse_date` raises `ValueError` on `yesterday+1` and `tomorrow-2` (the code's
own unit tests expect these to resolve), while `today+1` resolves. -/
theorem C2_inline_offset_only_today :
    parse_date 738885 "yesterday+1" 0 = none ∧
    parse_date 738885 "tomorrow-2" 0 = none ∧
    parse_date 738885 "today+1" 0 = some 738886 ∧
    parse_date 738885 "today-2" 3 = some 738886 ∧
    parse_date 738885 "1990-10-03" 5 = some 726748 ∧
    parse_date 738885 "not a date" 0 = none := by decide

/-- C3: the WHERE-clause builder ignores the filter's operator and type: a null
value with `=` renders `deleted_at = 'None'` instead of `deleted_at IS NULL`,
and a numeric `>=` filter renders `total_revenue = '1000'` (quoted, with `=`)
instead of `total_revenue >= 1000`; only the empty-mapping clause of the claim
holds. -/
theorem C3_where_builder_ignores_operators :
    assemble_where_statement [] = "" ∧
    assemble_where_statement [("deleted", ⟨"deleted_at", .none_, "=", "other"⟩)] =
      "WHERE\n    deleted_at = \x27None\x27" ∧
    assemble_where_statement [("deleted", ⟨"deleted_at", .none_, "=", "other"⟩)] ≠
      "WHERE\n    deleted_at IS NULL" ∧
    assemble_where_statement [("revenue", ⟨"total_revenue", .int 1000, ">=", "other"⟩)] =
      "WHERE\n    total_revenue = \x271000\x27" ∧
    assemble_where_statement [("revenue", ⟨"total_revenue", .int 1000, ">=", "other"⟩)] ≠
      "WHERE\n    total_revenue >= 1000" := by decide

/-- C5: whenever the data-existence probe reports a non-empty marker (no data),
`__call__` returns the `data_exists` record and the metric query is never
attempted. -/
theorem C5_probe_failure_skips_metric (c : CheckCfg) (m : String)
    (metric : Except String (List (Option ℚ))) (h : m ≠ "") :
    DataQualityCheck.callCheck c (.ok (some m)) metric =
      (.inl ⟨c.date_filter_value, "data_exists", c.shop_id, ""⟩, false) := by
  simp [DataQualityCheck.callCheck, DataQualityCheck.data_check, h]

/-- Witness for C5 at a concrete input. -/
theorem C5_probe_failure_skips_metric_witness :
    "dummy_table" ≠ "" ∧
    DataQualityCheck.callCheck cfgNominal (.ok (some "dummy_table")) (.ok [some 7]) =
      (.inl ⟨cfgNominal.date_filter_value, "data_exists", cfgNominal.shop_id, ""⟩, false) :=
  ⟨by decide, C5_probe_failure_skips_metric cfgNominal "dummy_table" (.ok [some 7]) (by decide)⟩

/-- C7: a failing check whose true value `0.0000123` is non-zero renders the
fixed-precision string `0.0000` in the failure message — the dynamic-precision
growth the claim (and tests/test_checks.py `test_message_correct_formatting`)
demand does not happen. -/
theorem C7_fail_message_fixed_precision :
    valTiny ≠ 0 ∧
    (DataQualityCheck.check cfgZeroBand (.ok [some valTiny])).1.RESULT = "FAIL" ∧
    (DataQualityCheck.check cfgZeroBand (.ok [some valTiny])).2 =
      some "SHOP001: Metric row_count failed on 2023-01-01 for dummy_table. Value 0.0000 is not between 0 and 0." ∧
    (DataQualityCheck.check cfgZeroBand (.ok [some valTiny])).2 ≠
      some "SHOP001: Metric row_count failed on 2023-01-01 for dummy_table. Value 0.00001 is not between 0 and 0." := by
  decide

/-- C8: every invalid check parameterisation named in the error taxonomy is
rejected by the (query-free) constructor validation: an Occurrence mode other
than max/min, an empty value set, MatchRate join-column lists of unequal length,
and IQR parameters violating `interval_days ≥ 1`, `how ∈ both/upper/lower` or
`iqr_factor ≥ 1.5`. -/
theorem C8_constructor_validation :
    (∀ m : String, m ≠ "max" → m ≠ "min" →
      OccurrenceCheck.initCheck m =
        .error "\x27max_or_min\x27 not one of supported modes \x27min\x27 or \x27max\x27")
    ∧ (∀ v : SetVal, to_set v = [] →
      ValuesInSetCheck.initCheck v = .error "\x27value_set\x27 must not be empty")
    ∧ (∀ jl jr : List String, jl ≠ [] → jr ≠ [] → jl.length ≠ jr.length →
      MatchRateCheck.initCheck none (some jl) (some jr) =
        .error ("join_columns_left and join_columns_right need to have equal length ("
          ++ toString jl.length ++ " vs. " ++ toString jr.length ++ ")."))
    ∧ (∀ (d : ℤ) (how : String) (f : ℚ), d < 1 →
      IqrOutlierCheck.initCheck d how f = .error "interval_days must be at least 1")
    ∧ (∀ (d : ℤ) (how : String) (f : ℚ), 1 ≤ d →
      how ≠ "both" → how ≠ "upper" → how ≠ "lower" →
      IqrOutlierCheck.initCheck d how f =
        .error "how must be one of \x27both\x27, \x27upper\x27, \x27lower\x27")
    ∧ (∀ (d : ℤ) (how : String) (f : ℚ), 1 ≤ d →
      (how = "both" ∨ how = "upper" ∨ how = "lower") → f < iqrFactorMin →
      IqrOutlierCheck.initCheck d how f = .error "iqr_factor must be at least 1.5") := by
  refine ⟨?_, ?_, ?_, ?_, ?_, ?_⟩
  · intro m h1 h2
    simp [OccurrenceCheck.initCheck, h1, h2]
  · intro v h
    simp [ValuesInSetCheck.initCheck, h]
  · intro jl jr h1 h2 h3
    have hl : jl.isEmpty = false := by simpa [List.isEmpty_iff] using h1
    have hr : jr.isEmpty = false := by simpa [List.isEmpty_iff] using h2
    simp [MatchRateCheck.initCheck, truthy, hl, hr, h3]
  · intro d how f h
    simp [IqrOutlierCheck.initCheck, h]
  · intro d how f h1 h2 h3 h4
    simp [IqrOutlierCheck.initCheck, h2, h3, h4, not_lt_of_le h1]
  · intro d how f h1 h2 h3
    simp [IqrOutlierCheck.initCheck, h3, not_lt_of_le h1]
    rcases h2 with h | h | h <;> simp [h]

/-- Witness for C8 at concrete invalid parameterisations. -/
theorem C8_constructor_validation_witness :
    OccurrenceCheck.initCheck "median" =
      .error "\x27max_or_min\x27 not one of supported modes \x27min\x27 or \x27max\x27" ∧
    ValuesInSetCheck.initCheck (.coll []) = .error "\x27value_set\x27 must not be empty" ∧
    MatchRateCheck.initCheck none (some ["a"]) (some ["b", "c"]) =
      .error "join_columns_left and join_columns_right need to have equal length (1 vs. 2)." ∧
    IqrOutlierCheck.initCheck 0 "both" 2 = .error "interval_days must be at least 1" ∧
    IqrOutlierCheck.initCheck 14 "sideways" 2 =
      .error "how must be one of \x27both\x27, \x27upper\x27, \x27lower\x27" ∧
    IqrOutlierCheck.initCheck 14 "both" 1 = .error "iqr_factor must be at least 1.5" := by
  refine ⟨?_, ?_, ?_, ?_, ?_, ?_⟩
  · exact C8_constructor_validation.1 "median" (by decide) (by decide)
  · exact C8_constructor_validation.2.1 (.coll []) (by decide)
  · have h := C8_constructor_validation.2.2.1 ["a"] ["b", "c"] (by decide) (by decide) (by decide)
    simpa using h
  · exact C8_constructor_validation.2.2.2.1 0 "both" 2 (by decide)
  · exact C8_constructor_validation.2.2.2.2.1 14 "sideways" 2 (by decide) (by decide) (by decide) (by decide)
  · exact C8_constructor_validation.2.2.2.2.2 14 "both" 1 (by decide) (by decide) (by decide)

/-- C9: `parse_date("today", offset_days = 0)` is the current date, and
`parse_date("yesterday", offset_days = 1)` is also the current date — the
explicit `+1` offset cancels the keyword's built-in shift of `-1` day. -/
theorem C9_today_yesterday_roundtrip (now : ℤ) :
    parse_date now "today" 0 = some now ∧ parse_date now "yesterday" 1 = some now := by
  have h1 : lowerString "today" = "today" := by decide
  have h2 : lowerString "yesterday" = "yesterday" := by decide
  constructor
  · simp [parse_date, h1]
  · simp [parse_date, h2]

/-- C10: when the data-existence probe query raises a database error,
`data_check` returns the empty dict (no `data_exists` record, no message), so
`__call__` proceeds to run the metric query — contrary to the claim (and to the
otherwise-dead error string the except-branch builds). -/
theorem C10_probe_error_runs_metric :
    DataQualityCheck.data_check "dummy_table" "2023-01-01" "SHOP001" (.error ()) = (none, none) ∧
    (DataQualityCheck.callCheck cfgNominal (.error ()) (.ok [some 7])).2 = true ∧
    (DataQualityCheck.callCheck cfgNominal (.error ()) (.ok [some 7])).1 =
      .inr (DataQualityCheck.check cfgNominal (.ok [some 7])).1 := by
  decide

/-! ### Helper lemmas for the data-existence cache -/

theorem lookupKey_append_some (l1 l2 : List (CacheKey × Option DataCheckRecord))
    (k : CacheKey) (r : Option DataCheckRecord) :
    lookupKey l1 k = some r → lookupKey (l1 ++ l2) k = some r := by
  induction l1 with
  | nil => intro h; simp [lookupKey] at h
  | cons p l1 ih =>
      intro h
      obtain ⟨pk, pr⟩ := p
      by_cases hk : pk = k
      · subst hk
        simpa [lookupKey] using h
      · simp only [List.cons_append, lookupKey, if_neg hk] at h ⊢
        exact ih h

theorem lookupKey_append_none (l1 l2 : List (CacheKey × Option DataCheckRecord))
    (k : CacheKey) :
    lookupKey l1 k = none → lookupKey (l1 ++ l2) k = lookupKey l2 k := by
  induction l1 with
  | nil => intro _; simp
  | cons p l1 ih =>
      intro h
      obtain ⟨pk, pr⟩ := p
      by_cases hk : pk = k
      · subst hk; simp [lookupKey] at h
      · simp only [lookupKey, if_neg hk] at h
        simp only [List.cons_append, lookupKey, if_neg hk]
        exact ih h

theorem effProbe_append_left (pre l : List ExecCheck) (k : CacheKey) :
    k ∈ pre.map CheckExecutor.get_dataset_cache_key → effProbe (pre ++ l) k = effProbe pre k := by
  induction pre with
  | nil => intro h; simp at h
  | cons c pre ih =>
      intro h
      simp only [List.cons_append, effProbe]
      by_cases hk : CheckExecutor.get_dataset_cache_key c = k
      · rw [if_pos hk, if_pos hk]
      · rw [if_neg hk, if_neg hk]
        apply ih
        simp only [List.map_cons, List.mem_cons] at h
        rcases h with h | h
        · exact absurd h.symm hk
        · exact h

theorem effProbe_append_first (pre : List ExecCheck) (c : ExecCheck) (l : List ExecCheck) :
    CheckExecutor.get_dataset_cache_key c ∉ pre.map CheckExecutor.get_dataset_cache_key →
    effProbe (pre ++ c :: l) (CheckExecutor.get_dataset_cache_key c) = c.probe_outcome := by
  induction pre with
  | nil => intro _; simp [effProbe]
  | cons p pre ih =>
      intro h
      simp only [List.map_cons, List.mem_cons] at h
      push_neg at h
      simp only [List.cons_append, effProbe]
      rw [if_neg (fun he => h.1 he.symm)]
      exact ih h.2

theorem firstKeys_congr (l : List ExecCheck) :
    ∀ seen1 seen2 : List CacheKey, (∀ k, k ∈ seen1 ↔ k ∈ seen2) →
    firstKeys seen1 l = firstKeys seen2 l := by
  induction l with
  | nil => intro _ _ _; rfl
  | cons c cs ih =>
      intro seen1 seen2 h
      simp only [firstKeys]
      by_cases hk : CheckExecutor.get_dataset_cache_key c ∈ seen1
      · rw [if_pos hk, if_pos ((h _).mp hk)]
        exact ih _ _ h
      · rw [if_neg hk, if_neg (fun hc => hk ((h _).mpr hc))]
        refine congrArg _ (ih _ _ ?_)
        intro k
        simp only [List.mem_append, List.mem_singleton]
        exact or_congr_left (h k)

theorem mem_firstKeys (l : List ExecCheck) :
    ∀ (seen : List CacheKey) (k : CacheKey),
    k ∈ firstKeys seen l ↔ k ∈ l.map CheckExecutor.get_dataset_cache_key ∧ k ∉ seen := by
  induction l with
  | nil => intro seen k; simp [firstKeys]
  | cons c cs ih =>
      intro seen k
      simp only [firstKeys, List.map_cons, List.mem_cons]
      by_cases hc : CheckExecutor.get_dataset_cache_key c ∈ seen
      · rw [if_pos hc, ih]
        constructor
        · rintro ⟨h1, h2⟩
          exact ⟨Or.inr h1, h2⟩
        · rintro ⟨h1 | h1, h2⟩
          · exact absurd (h1 ▸ hc) h2
          · exact ⟨h1, h2⟩
      · rw [if_neg hc]
        simp only [List.mem_cons, ih, List.mem_append, List.mem_singleton, List.not_mem_nil,
          or_false]
        constructor
        · rintro (h1 | ⟨h1, h2⟩)
          · exact ⟨Or.inl h1, fun hs => hc (h1 ▸ hs)⟩
          · exact ⟨Or.inr h1, fun hs => h2 (Or.inl hs)⟩
        · rintro ⟨h1 | h1, h2⟩
          · exact Or.inl h1
          · by_cases hkc : k = CheckExecutor.get_dataset_cache_key c
            · exact Or.inl hkc
            · exact Or.inr ⟨h1, fun hs => hs.elim h2 hkc⟩

theorem firstKeys_nodup (l : List ExecCheck) :
    ∀ seen : List CacheKey, (firstKeys seen l).Nodup := by
  induction l with
  | nil => intro _; simp [firstKeys]
  | cons c cs ih =>
      intro seen
      simp only [firstKeys]
      by_cases hc : CheckExecutor.get_dataset_cache_key c ∈ seen
      · rw [if_pos hc]; exact ih seen
      · rw [if_neg hc]
        refine List.nodup_cons.mpr ⟨?_, ih _⟩
        intro hmem
        rcases (mem_firstKeys cs _ _).mp hmem with ⟨_, h2⟩
        exact h2 (by simp)

theorem execute_checks_loop (rest : List ExecCheck) :
    ∀ (pre : List ExecCheck) (s : RunState),
    (∀ k, lookupKey s.cache k =
        if k ∈ pre.map CheckExecutor.get_dataset_cache_key then some (effProbe pre k) else none) →
    ((rest.foldl stepCheck s).results =
        s.results ++ rest.map (fun c =>
          mkResult c (effProbe (pre ++ rest) (CheckExecutor.get_dataset_cache_key c))))
    ∧ ((rest.foldl stepCheck s).probes =
        s.probes ++ firstKeys (pre.map CheckExecutor.get_dataset_cache_key) rest) := by
  induction rest with
  | nil => intro pre s _; simp [firstKeys]
  | cons c cs ih =>
      intro pre s h
      have hk := h (CheckExecutor.get_dataset_cache_key c)
      by_cases hmem :
          CheckExecutor.get_dataset_cache_key c ∈ pre.map CheckExecutor.get_dataset_cache_key
      · -- cache hit: the recorded outcome of the first check with this key is reused
        rw [if_pos hmem] at hk
        have hstep : stepCheck s c =
            { s with results := s.results ++
                [mkResult c (effProbe pre (CheckExecutor.get_dataset_cache_key c))] } := by
          simp [stepCheck, hk]
        have hinv : ∀ k, lookupKey (stepCheck s c).cache k =
            if k ∈ (pre ++ [c]).map CheckExecutor.get_dataset_cache_key
            then some (effProbe (pre ++ [c]) k) else none := by
          intro k
          rw [hstep]
          have hcur := h k
          by_cases hk2 : k ∈ pre.map CheckExecutor.get_dataset_cache_key
          · rw [if_pos hk2] at hcur
            rw [hcur, if_pos (by simp [hk2]), effProbe_append_left pre [c] k hk2]
          · rw [if_neg hk2] at hcur
            rw [hcur, if_neg]
            simp only [List.map_append, List.mem_append, List.map_cons, List.map_nil,
              List.mem_singleton, List.mem_cons, List.not_mem_nil, or_false]
            rintro (h0 | h0)
            · exact hk2 h0
            · exact hk2 (h0 ▸ hmem)
        obtain ⟨ihr, ihp⟩ := ih (pre ++ [c]) (stepCheck s c) hinv
        have hassoc : (pre ++ [c]) ++ cs = pre ++ c :: cs := by simp
        constructor
        · rw [List.foldl_cons, ihr, hstep, hassoc]
          simp only [List.map_cons, List.append_assoc, List.singleton_append, List.cons_append,
            List.nil_append]
          rw [effProbe_append_left pre (c :: cs) _ hmem]
        · rw [List.foldl_cons, ihp, hstep]
          have heq : firstKeys (pre.map CheckExecutor.get_dataset_cache_key) (c :: cs) =
              firstKeys ((pre ++ [c]).map CheckExecutor.get_dataset_cache_key) cs := by
            simp only [firstKeys, if_pos hmem]
            refine firstKeys_congr cs _ _ ?_
            intro k
            simp only [List.map_append, List.mem_append, List.map_cons, List.map_nil,
              List.mem_singleton, List.mem_cons, List.not_mem_nil, or_false]
            constructor
            · intro hh; exact Or.inl hh
            · rintro (hh | hh)
              · exact hh
              · exact hh ▸ hmem
          rw [heq]
      · -- cache miss: the probe executes and its outcome is recorded
        rw [if_neg hmem] at hk
        have hstep : stepCheck s c =
            ⟨s.cache ++ [(CheckExecutor.get_dataset_cache_key c, c.probe_outcome)],
             s.probes ++ [CheckExecutor.get_dataset_cache_key c],
             s.results ++ [mkResult c c.probe_outcome]⟩ := by
          simp [stepCheck, hk]
        have hinv : ∀ k, lookupKey (stepCheck s c).cache k =
            if k ∈ (pre ++ [c]).map CheckExecutor.get_dataset_cache_key
            then some (effProbe (pre ++ [c]) k) else none := by
          intro k
          rw [hstep]
          have hcur := h k
          by_cases hk2 : k ∈ pre.map CheckExecutor.get_dataset_cache_key
          · rw [if_pos hk2] at hcur
            rw [lookupKey_append_some _ _ _ _ hcur, if_pos (by simp [hk2]),
              effProbe_append_left pre [c] k hk2]
          · rw [if_neg hk2] at hcur
            by_cases hk3 : k = CheckExecutor.get_dataset_cache_key c
            · subst hk3
              rw [lookupKey_append_none _ _ _ hcur]
              have hmem2 : CheckExecutor.get_dataset_cache_key c ∈
                  List.map CheckExecutor.get_dataset_cache_key (pre ++ [c]) := by simp
              rw [if_pos hmem2, effProbe_append_first pre c [] hmem]
              simp [lookupKey]
            · rw [lookupKey_append_none _ _ _ hcur]
              simp only [lookupKey]
              rw [if_neg (fun he => hk3 he.symm), if_neg]
              simp only [List.map_append, List.mem_append, List.map_cons, List.map_nil,
                List.mem_singleton, List.mem_cons, List.not_mem_nil, or_false]
              rintro (h0 | h0)
              · exact hk2 h0
              · exact hk3 h0
        obtain ⟨ihr, ihp⟩ := ih (pre ++ [c]) (stepCheck s c) hinv
        have hassoc : (pre ++ [c]) ++ cs = pre ++ c :: cs := by simp
        constructor
        · rw [List.foldl_cons, ihr, hstep, hassoc]
          simp only [List.map_cons, List.append_assoc, List.singleton_append, List.cons_append,
            List.nil_append]
          rw [effProbe_append_first pre c cs hmem]
        · rw [List.foldl_cons, ihp, hstep]
          have heq : firstKeys (pre.map CheckExecutor.get_dataset_cache_key) (c :: cs) =
              CheckExecutor.get_dataset_cache_key c ::
                firstKeys ((pre ++ [c]).map CheckExecutor.get_dataset_cache_key) cs := by
            simp only [firstKeys, if_neg hmem, List.map_append, List.map_cons, List.map_nil]
          rw [heq]
          simp

/-- C4: within one executor run (a) each dataset cache key triggers at most one
data-existence probe no matter how many checks share it, and the probes are
exactly the distinct keys of the executed checks; (b) every check's recorded
outcome uses the probe result of the *first* check with its key (`effProbe`), so
later checks with the same key receive the previously recorded result without
re-querying; (c) two non-MatchRate checks whose filter signatures differ — e.g.
differing only in an identifier filter — have distinct cache keys, and (d) a run
of two checks with distinct keys performs two probes. -/
theorem C4_data_existence_cache (cs : List ExecCheck) :
    ((CheckExecutor.execute_checks cs).probes =
        firstKeys [] cs)
    ∧ (∀ k, ((CheckExecutor.execute_checks cs).probes.count k) ≤ 1)
    ∧ (∀ k, k ∈ (CheckExecutor.execute_checks cs).probes ↔
        k ∈ cs.map CheckExecutor.get_dataset_cache_key)
    ∧ ((CheckExecutor.execute_checks cs).results =
        cs.map (fun c => mkResult c (effProbe cs (CheckExecutor.get_dataset_cache_key c))))
    ∧ (∀ c1 c2 : ExecCheck, c1.is_match_rate = false → c2.is_match_rate = false →
        (c1.filters.map (filterSig "")).toFinset ≠ (c2.filters.map (filterSig "")).toFinset →
        CheckExecutor.get_dataset_cache_key c1 ≠ CheckExecutor.get_dataset_cache_key c2)
    ∧ (∀ c1 c2 : ExecCheck,
        CheckExecutor.get_dataset_cache_key c1 ≠ CheckExecutor.get_dataset_cache_key c2 →
        (CheckExecutor.execute_checks [c1, c2]).probes.length = 2) := by
  have hbase : ∀ k : CacheKey, lookupKey (⟨[], [], []⟩ : RunState).cache k =
      if k ∈ ([] : List ExecCheck).map CheckExecutor.get_dataset_cache_key
      then some (effProbe [] k) else none := by
    intro k; simp [lookupKey]
  obtain ⟨hr, hp⟩ := execute_checks_loop cs [] ⟨[], [], []⟩ hbase
  refine ⟨?_, ?_, ?_, ?_, ?_, ?_⟩
  · simpa [CheckExecutor.execute_checks] using hp
  · intro k
    have hnd : (firstKeys ([] : List CacheKey) cs).Nodup := firstKeys_nodup cs []
    have : (CheckExecutor.execute_checks cs).probes = firstKeys [] cs := by
      simpa [CheckExecutor.execute_checks] using hp
    rw [this]
    exact List.nodup_iff_count_le_one.mp hnd k
  · intro k
    have : (CheckExecutor.execute_checks cs).probes = firstKeys [] cs := by
      simpa [CheckExecutor.execute_checks] using hp
    rw [this, mem_firstKeys]
    simp
  · simpa [CheckExecutor.execute_checks] using hr
  · intro c1 c2 h1 h2 hne heq
    apply hne
    have := congrArg CacheKey.filters_key heq
    simpa [CheckExecutor.get_dataset_cache_key, h1, h2] using this
  · intro c1 c2 hne
    simp only [CheckExecutor.execute_checks, List.foldl_cons, List.foldl_nil]
    have h1 : stepCheck ⟨[], [], []⟩ c1 =
        ⟨[(CheckExecutor.get_dataset_cache_key c1, c1.probe_outcome)],
         [CheckExecutor.get_dataset_cache_key c1],
         [mkResult c1 c1.probe_outcome]⟩ := by
      simp [stepCheck, lookupKey]
    rw [h1]
    have h2 : lookupKey [(CheckExecutor.get_dataset_cache_key c1, c1.probe_outcome)]
        (CheckExecutor.get_dataset_cache_key c2) = none := by
      simp [lookupKey, hne]
    simp [stepCheck, h2]

/-- Witness for C4 at the concrete scenario of the integration tests: checks exA
and exB share a dataset (one probe, exB receives exA's missing-data record),
check exC differs only in the identifier filter's value (its own probe runs). -/
theorem C4_data_existence_cache_witness :
    ((CheckExecutor.execute_checks [exA, exB, exC]).probes.count
        (CheckExecutor.get_dataset_cache_key exA) ≤ 1)
    ∧ ((CheckExecutor.execute_checks [exA, exB, exC]).results =
        [exA, exB, exC].map (fun c =>
          mkResult c (effProbe [exA, exB, exC] (CheckExecutor.get_dataset_cache_key c))))
    ∧ (CheckExecutor.get_dataset_cache_key exA ≠ CheckExecutor.get_dataset_cache_key exC)
    ∧ ((CheckExecutor.execute_checks [exA, exC]).probes.length = 2) := by
  refine ⟨?_, ?_, ?_, ?_⟩
  · exact (C4_data_existence_cache [exA, exB, exC]).2.1 _
  · exact (C4_data_existence_cache [exA, exB, exC]).2.2.2.1
  · exact (C4_data_existence_cache []).2.2.2.2.1 exA exC rfl rfl (by decide)
  · exact (C4_data_existence_cache []).2.2.2.2.2 exA exC
      ((C4_data_existence_cache []).2.2.2.2.1 exA exC rfl rfl (by decide))

/-! ### Helper lemmas for result aggregation -/

theorem mem_dedupFirst {α : Type} [DecidableEq α] (l : List α) (a : α) :
    a ∈ dedupFirst l ↔ a ∈ l := by
  induction l with
  | nil => simp [dedupFirst]
  | cons x xs ih =>
      simp only [dedupFirst, List.mem_cons, List.mem_filter, ih, decide_eq_true_eq]
      constructor
      · rintro (h | ⟨h, _⟩)
        · exact Or.inl h
        · exact Or.inr h
      · rintro (h | h)
        · exact Or.inl h
        · by_cases hx : a = x
          · exact Or.inl hx
          · exact Or.inr ⟨h, hx⟩

theorem nodup_dedupFirst {α : Type} [DecidableEq α] (l : List α) :
    (dedupFirst l).Nodup := by
  induction l with
  | nil => simp [dedupFirst]
  | cons x xs ih =>
      refine List.nodup_cons.mpr ⟨?_, ih.filter _⟩
      intro hmem
      have := (List.mem_filter.mp hmem).2
      simp at this

theorem combinedRow_isNoData (nd : List ResultDict) (k : String × String × String)
    (h : k ∈ nd.map groupKeyOf) (hall : ∀ r ∈ nd, isNoData r = true) :
    isNoData (combinedRow nd k) = true := by
  rcases List.mem_map.mp h with ⟨r, hr, hk⟩
  have hno := hall r hr
  subst hk
  simpa [combinedRow, isNoData, groupKeyOf] using hno

theorem aggregate_result_dicts_eq (rds : List ResultDict) :
    CheckExecutor.aggregate_result_dicts rds =
      (dedupFirst ((rds.filter isNoData).map groupKeyOf)).map
        (combinedRow (rds.filter isNoData))
      ++ rds.filter (fun r => !isNoData r) := by
  unfold CheckExecutor.aggregate_result_dicts
  by_cases h : (rds.filter isNoData).isEmpty
  · have hnil : rds.filter isNoData = [] := by simpa [List.isEmpty_iff] using h
    simp [h, hnil, dedupFirst]
  · simp [h]

/-- C6: result aggregation (a) leaves the non-`data_exists`/`table_exists`
records exactly as they were (they pass through unchanged and nothing else
looks like them), (b) replaces the missing-data records by one combined row per
distinct `(date, metric_name, table)` group, (c) the groups are deduplicated, so
exactly one `FAIL` row is emitted per group, (d) each combined row carries null
column, value and thresholds, result `FAIL`, and its group's identifiers merged
by `aggregate_values`, and (e) `aggregate_values` joins a sorted, deduplicated
copy of the identifiers with commas. -/
theorem C6_result_aggregation (rds : List ResultDict) :
    ((CheckExecutor.aggregate_result_dicts rds).filter (fun r => !isNoData r) =
        rds.filter (fun r => !isNoData r))
    ∧ (∀ r ∈ rds, isNoData r = false → r ∈ CheckExecutor.aggregate_result_dicts rds)
    ∧ ((CheckExecutor.aggregate_result_dicts rds).filter isNoData =
        (dedupFirst ((rds.filter isNoData).map groupKeyOf)).map
          (combinedRow (rds.filter isNoData)))
    ∧ (dedupFirst ((rds.filter isNoData).map groupKeyOf)).Nodup
    ∧ (∀ k, k ∈ dedupFirst ((rds.filter isNoData).map groupKeyOf) ↔
        ∃ r ∈ rds.filter isNoData, groupKeyOf r = k)
    ∧ (∀ (nd : List ResultDict) (k : String × String × String),
        (combinedRow nd k).COLUMN = none ∧ (combinedRow nd k).VALUE = none ∧
        (combinedRow nd k).LOWER_THRESHOLD = none ∧
        (combinedRow nd k).UPPER_THRESHOLD = none ∧
        (combinedRow nd k).RESULT = some "FAIL" ∧
        (combinedRow nd k).IDENTIFIER = CheckExecutor.aggregate_values
          ((nd.filter (fun r => decide (groupKeyOf r = k))).map (fun r => r.IDENTIFIER)))
    ∧ (∀ l : List String,
        (List.insertionSort (fun a b => a ≤ b) (dedupFirst l)).Sorted (fun a b => a ≤ b) ∧
        (List.insertionSort (fun a b => a ≤ b) (dedupFirst l)).Nodup ∧
        (∀ s, s ∈ List.insertionSort (fun a b => a ≤ b) (dedupFirst l) ↔ s ∈ l) ∧
        CheckExecutor.aggregate_values l =
          joinSep ", " (List.insertionSort (fun a b => a ≤ b) (dedupFirst l))) := by
  have hall : ∀ r ∈ rds.filter isNoData, isNoData r = true :=
    fun r hr => (List.mem_filter.mp hr).2
  have hagg : ∀ row ∈ (dedupFirst ((rds.filter isNoData).map groupKeyOf)).map
      (combinedRow (rds.filter isNoData)), isNoData row = true := by
    intro row hrow
    rcases List.mem_map.mp hrow with ⟨k, hk, hrowk⟩
    subst hrowk
    exact combinedRow_isNoData _ k ((mem_dedupFirst _ _).mp hk) hall
  refine ⟨?_, ?_, ?_, nodup_dedupFirst _, ?_, ?_, ?_⟩
  · rw [aggregate_result_dicts_eq, List.filter_append]
    have h1 : ((dedupFirst ((rds.filter isNoData).map groupKeyOf)).map
        (combinedRow (rds.filter isNoData))).filter (fun r => !isNoData r) = [] := by
      rw [List.filter_eq_nil_iff]
      intro row hrow
      simp [hagg row hrow]
    rw [h1, List.nil_append, List.filter_filter]
    simp
  · intro r hr hno
    rw [aggregate_result_dicts_eq]
    refine List.mem_append.mpr (Or.inr ?_)
    exact List.mem_filter.mpr ⟨hr, by simp [hno]⟩
  · rw [aggregate_result_dicts_eq, List.filter_append]
    have h1 : ((dedupFirst ((rds.filter isNoData).map groupKeyOf)).map
        (combinedRow (rds.filter isNoData))).filter isNoData =
        (dedupFirst ((rds.filter isNoData).map groupKeyOf)).map
          (combinedRow (rds.filter isNoData)) :=
      List.filter_eq_self.mpr hagg
    have h2 : (rds.filter (fun r => !isNoData r)).filter isNoData = [] := by
      rw [List.filter_filter, List.filter_eq_nil_iff]
      intro r _
      simp
    rw [h1, h2, List.append_nil]
  · intro k
    rw [mem_dedupFirst]
    simp only [List.mem_map]
  · intro nd k
    exact ⟨rfl, rfl, rfl, rfl, rfl, rfl⟩
  · intro l
    refine ⟨List.sorted_insertionSort _ _, ?_, ?_, rfl⟩
    · exact (List.perm_insertionSort _ _).nodup_iff.mpr (nodup_dedupFirst _)
    · intro s
      rw [(List.perm_insertionSort _ _).mem_iff, mem_dedupFirst]

/-- Witness for C6 at a concrete result list: two missing-data rows for SHOP002
and SHOP001 of the same group plus one ordinary metric row. -/
theorem C6_result_aggregation_witness :
    ((CheckExecutor.aggregate_result_dicts
        [rdNoData "SHOP002", rdNoData "SHOP001", rdNoData "SHOP002", rdMetric]).filter
        (fun r => !isNoData r) =
      [rdNoData "SHOP002", rdNoData "SHOP001", rdNoData "SHOP002", rdMetric].filter
        (fun r => !isNoData r))
    ∧ (rdMetric ∈ [rdNoData "SHOP002", rdNoData "SHOP001", rdNoData "SHOP002", rdMetric] →
        isNoData rdMetric = false →
        rdMetric ∈ CheckExecutor.aggregate_result_dicts
          [rdNoData "SHOP002", rdNoData "SHOP001", rdNoData "SHOP002", rdMetric]) := by
  refine ⟨?_, ?_⟩
  · exact (C6_result_aggregation _).1
  · intro h1 h2
    exact (C6_result_aggregation _).2.1 rdMetric h1 h2

end Koality
